import Mathlib

/-
Verification development for the two listing utilities in this repository,
src/calibre/list-calibre-collection.py and src/zotero/list-zotero-collection.py.
The Python code is shallowly embedded: pure data manipulation is translated
directly; I/O boundaries (SQLite rows, Google Drive lookups, the SMTP relay,
and the per-record formatting bodies, which may raise) appear as explicit
parameters or oracle functions; Python exceptions are modelled with
Except / Option / Bool outcomes. Thread-pool concurrency is modelled by
quantifying over every completion order (an arbitrary permutation of the
submitted (index, result) tasks).
-/

/-- Model of the Python expression needle in hay on strings: substring test. -/
def pyIn (needle hay : String) : Bool := decide (needle.data <:+: hay.data)

/-- Model of Python str.strip: drop whitespace from both ends, charwise. -/
def pyStrip (s : String) : String :=
  ⟨((s.data.dropWhile Char.isWhitespace).reverse.dropWhile Char.isWhitespace).reverse⟩

/-- Model of Python str.lower, charwise (the inputs of interest are ASCII). -/
def pyLower (s : String) : String := ⟨s.data.map Char.toLower⟩

/-- Ordering of (index, fragment) pairs by original submission index; this is
the comparison behind formatted_books.sort(key=lambda x: x[0]) and
formatted_items.sort(key=lambda x: x[0]) in the two scripts. -/
def KeyLE (a b : Nat × String) : Prop := a.1 ≤ b.1

instance : DecidableRel KeyLE := fun a b => Nat.decLe a.1 b.1

instance : IsTotal (Nat × String) KeyLE := ⟨fun a b => Nat.le_total a.1 b.1⟩

instance : IsTrans (Nat × String) KeyLE := ⟨fun _ _ _ h1 h2 => Nat.le_trans h1 h2⟩

/-- Reassembly step shared by both report renderers: the completed
(index, fragment) pairs, in whatever order the worker pool finished them, are
sorted by original index and the fragments are read off in that order. -/
def gather (completed : List (Nat × String)) : List String :=
  (List.insertionSort KeyLE completed).map Prod.snd

/-- Shared 20 MiB attachment size limit (20 * 1024 * 1024 in both scripts). -/
def SIZE_LIMIT : Nat := 20 * 1024 * 1024

/-- Observable side effect of a display function: a console message or a file
write (path and content). -/
inductive Effect where
  | console (msg : String)
  | fileWrite (path : String) (content : String)
deriving DecidableEq

/-- The three output encodings accepted by the --output-format option. -/
inductive OutputFormat where
  | text
  | html
  | pdf
deriving DecidableEq

namespace Calibre

/-- One book as assembled by list_calibre_books: its id, title, the names of
the tags linked to it, and the added timestamp used for ordering. Fields not
needed by any claim (authors, path, isbn, series, publisher, formats) are
omitted; they ride along inside the formatting oracle below. -/
structure Book where
  id : Nat
  title : String
  tags : List String
  timestamp : Nat
deriving DecidableEq

/-- Body of format_book_text / format_book_html for one book, abstracted as an
oracle: it may return rendered content or raise (attachment resolution and
Drive lookups can throw), which Except captures. -/
abbrev FormatOracle := Nat → Book → Except String String

/-- Translation of format_single_book (HTML variant, the module-level function):
on success it prepends the item-number div, on an exception it returns the
inline error placeholder div. -/
def format_single_book (fmt : FormatOracle) (idx : Nat) (book : Book) : String :=
  match fmt idx book with
  | Except.ok content =>
      "<div class=\x27item-number\x27>Book #" ++ toString (idx + 1) ++ "</div>" ++ "\n" ++ content
  | Except.error e =>
      "<div class=\x27item-error\x27>Error formatting book " ++ toString (idx + 1) ++ ": " ++ e ++ "</div>"

/-- Translation of the format_single_book closure inside generate_text_output:
header line, content, separator; an exception becomes an inline error line. -/
def format_single_book_text (fmt : FormatOracle) (idx : Nat) (book : Book) : String :=
  match fmt idx book with
  | Except.ok content =>
      "Book #" ++ toString (idx + 1) ++ "\n" ++ content ++ "\n---"
  | Except.error e =>
      "Error formatting book " ++ toString (idx + 1) ++ ": " ++ e ++ "\n---"

/-- The (index, result) pairs of the tasks submitted to the thread pool by
generate_text_output, listed in submission order. A run of the pool delivers a
permutation of this list. The outer as_completed handler that would catch an
exception from future.result() is unreachable, because format_single_book_text
already catches everything. -/
def text_tasks (fmt : FormatOracle) (books : List Book) : List (Nat × String) :=
  books.enum.map (fun p => (p.1, format_single_book_text fmt p.1 p.2))

/-- The (index, result) pairs of the tasks submitted by generate_books_html. -/
def html_tasks (fmt : FormatOracle) (books : List Book) : List (Nat × String) :=
  books.enum.map (fun p => (p.1, format_single_book fmt p.1 p.2))

/-- Header of the text report: title, a row of equal signs, a blank line. The
title (built from the current date and the tag list) is a parameter. -/
def text_header (title : String) : List String :=
  [title, String.mk (List.replicate title.length (Char.ofNat 61)), ""]

/-- Translation of generate_text_output, parametrised by the completion-order
list of the pool: sort by index, extract fragments, join with the header. -/
def generate_text_output (title : String) (completed : List (Nat × String)) : String :=
  String.intercalate "\n" (text_header title ++ gather completed)

/-- Deterministic denotation of generate_text_output: the completion order is
the submission order (every other order gives the same string, proved below). -/
def generate_text_output_run (fmt : FormatOracle) (title : String) (books : List Book) : String :=
  generate_text_output title (text_tasks fmt books)

/-- Translation of generate_html_header restricted to the structural lines;
the CSS style block is elided as it carries no record data. -/
def generate_html_header (title notice : String) : List String :=
  ["<!DOCTYPE html>", "<html>", "<head>",
   "<title>" ++ title ++ "</title>", "</head>", "<body>",
   "<h1>" ++ title ++ "</h1>",
   "<div class=\x27notice\x27>" ++ notice ++ "</div>"]

/-- Translation of generate_search_container. -/
def generate_search_container : List String :=
  ["<div class=\x27search-container\x27>",
   "<input type=\x27text\x27 id=\x27searchInput\x27 placeholder=\x27Search within this page...\x27 />",
   "<button id=\x27searchBtn\x27>Search</button>",
   "<span id=\x27searchCount\x27></span>",
   "</div>"]

/-- Translation of generate_search_script restricted to its structural lines;
the client-side JavaScript body is elided as it carries no record data. -/
def generate_search_script : List String :=
  ["<script>", "</script>", "</body>", "</html>"]

/-- Translation of generate_books_html, parametrised by the completion order:
collect the finished (index, fragment) pairs, sort by index, return fragments. -/
def generate_books_html (completed : List (Nat × String)) : List String :=
  gather completed

/-- Translation of generate_html_output, parametrised by the completion order
of the formatting pool. -/
def generate_html_output (title notice : String) (completed : List (Nat × String)) : String :=
  String.intercalate "\n"
    (generate_html_header title notice ++ generate_search_container ++
      generate_books_html completed ++ generate_search_script)

/-- Deterministic denotation of generate_html_output with the submission-order
completion. -/
def generate_html_output_run (fmt : FormatOracle) (title notice : String) (books : List Book) : String :=
  generate_html_output title notice (html_tasks fmt books)

/-- A PDF document is modelled as the HTML string handed to the external
rendering engine by generate_pdf_output; the engine itself is out of scope. -/
structure PdfDoc where
  html : String
deriving DecidableEq

/-- Model of pdfkit.from_string as used by generate_pdf_output: the produced
document is determined by the rendered HTML. -/
def pdf_of_html (content : String) : PdfDoc := ⟨content⟩

/-- Translation of display_books. The boolean pdf_engine_ok models whether the
external pdfkit conversion succeeds; on failure generate_pdf_output calls
sys.exit(1), which the second component (the exit code) records. -/
def display_books (fmt : FormatOracle) (title notice : String) (books : List Book)
    (output_format : OutputFormat) (output_file : Option String) (pdf_engine_ok : Bool) :
    List Effect × Nat :=
  if books.isEmpty then ([Effect.console "No books found."], 0)
  else
    match output_format with
    | OutputFormat.text =>
        let content := generate_text_output_run fmt title books
        match output_file with
        | some f => ([Effect.fileWrite f content, Effect.console ("Text output saved to " ++ f)], 0)
        | none => ([Effect.console content], 0)
    | OutputFormat.html =>
        let content := generate_html_output_run fmt title notice books
        match output_file with
        | some f => ([Effect.fileWrite f content, Effect.console ("HTML output saved to " ++ f)], 0)
        | none => ([Effect.console content], 0)
    | OutputFormat.pdf =>
        let content := generate_html_output_run fmt title notice books
        let f := (match output_file with | some f => f | none => "calibre_books.pdf")
        if pdf_engine_ok then
          ([Effect.fileWrite f (pdf_of_html content).html, Effect.console ("PDF output saved to " ++ f)], 0)
        else ([Effect.console "Error generating PDF with pdfkit"], 1)

/-- Outcome of the Google Drive part of connect_to_calibre_db: metadata.db was
found inside a Calibre Library folder, found by the fallback search anywhere
in Drive, found nowhere, or the Drive interaction raised an exception. -/
inductive GDriveLookup where
  | foundFolder
  | foundAnywhere
  | notFound
  | raised (msg : String)
deriving DecidableEq

/-- A database connection returned by connect_to_calibre_db: either to the
local metadata.db or to the temporary copy downloaded from Drive. -/
inductive CalibreConn where
  | localConn
  | tempConn
deriving DecidableEq

/-- Translation of connect_to_calibre_db: use the local file if it exists;
otherwise consult Google Drive when credentials were given (the gdrive
parameter is none exactly when no credentials are configured); a Drive
exception is re-raised as FileNotFoundError, and if nothing was found the
final FileNotFoundError names the local path and Google Drive. -/
def connect_to_calibre_db (library_path : String) (local_db_exists : Bool)
    (gdrive : Option GDriveLookup) : Except String CalibreConn :=
  let db_path := library_path ++ "/metadata.db"
  if local_db_exists then Except.ok CalibreConn.localConn
  else
    match gdrive with
    | some GDriveLookup.foundFolder => Except.ok CalibreConn.tempConn
    | some GDriveLookup.foundAnywhere => Except.ok CalibreConn.tempConn
    | some GDriveLookup.notFound =>
        Except.error ("Calibre database not found at " ++ db_path ++ " and not found in Google Drive.")
    | some (GDriveLookup.raised msg) =>
        Except.error ("Could not find or download Calibre database: " ++ msg)
    | none =>
        Except.error ("Calibre database not found at " ++ db_path ++ " and not found in Google Drive.")

/-- Descending comparison on the added timestamp, the ORDER BY books.timestamp
DESC of the base query in list_calibre_books. -/
def TsGE (a b : Book) : Prop := b.timestamp ≤ a.timestamp

instance : DecidableRel TsGE := fun a b => Nat.decLe b.timestamp a.timestamp

instance : IsTotal Book TsGE := ⟨fun a b => Nat.le_total b.timestamp a.timestamp⟩

instance : IsTrans Book TsGE := ⟨fun _ _ _ h1 h2 => Nat.le_trans h2 h1⟩

/-- Translation of the ordering performed by list_calibre_books: the fetched
rows sorted most-recent-first by timestamp. -/
def list_calibre_books (rows : List Book) : List Book :=
  List.insertionSort TsGE rows

/-- Match test of the custom tag filter in main: some category is a substring
of some (lowercased) tag of the book, or vice versa. -/
def tag_match (categories : List String) (book_tags : List String) : Bool :=
  categories.any (fun cat => book_tags.any (fun tag => pyIn cat tag || pyIn tag cat))

/-- Translation of the tag-filtering block of main: categories are the
stripped, lowercased, non-empty --tag arguments; a book is kept when
tag_match succeeds against its lowercased tag names. The Python list
comprehension preserves the order of books. -/
def filter_books_by_tags (raw_tags : List String) (books : List Book) : List Book :=
  let categories := (raw_tags.filter (fun c => pyStrip c != "")).map (fun c => pyLower (pyStrip c))
  books.filter (fun b => tag_match categories (b.tags.map pyLower))

/-- Reading of the sent_books.txt lines in select_random_book: each line is
stripped and empty lines are dropped. -/
def read_sent_ids (log_lines : List String) : List String :=
  (log_lines.map pyStrip).filter (fun l => l != "")

/-- Translation of select_random_book. The log is the line list of
sent_books.txt; random.choice is modelled by the index parameter k taken
modulo the number of candidates. The chosen id is appended to the log before
the function returns, hence before any email transport is attempted. -/
def select_random_book (books : List Book) (log_lines : List String) (k : Nat) :
    Option (Book × List String) :=
  let sent_ids := read_sent_ids log_lines
  let unsent_books := books.filter (fun b => decide (toString b.id ∉ sent_ids))
  if h : unsent_books = [] then none
  else
    let chosen := unsent_books.get ⟨k % unsent_books.length, Nat.mod_lt k (List.length_pos.mpr h)⟩
    some (chosen, log_lines ++ [toString chosen.id])

/-- Translation of the send loop of main over recipients. send_ok r tells
whether the SMTP transaction for recipient r succeeds; send_book_email
re-raises on failure, so the loop stops at the first failing recipient and
the exception escapes to the top-level handler. The result is the list of
recipients actually attempted and whether the loop completed. -/
def send_to_recipients (send_ok : String → Bool) : List String → List String × Bool
  | [] => ([], true)
  | r :: rest =>
      if send_ok r then
        let res := send_to_recipients send_ok rest
        (r :: res.1, res.2)
      else ([r], false)

/-- Exit code of the email mode of main: the top-level handler maps an escaped
exception to sys.exit(1). -/
def email_mode_exit (send_ok : String → Bool) (recipients : List String) : Nat :=
  if (send_to_recipients send_ok recipients).2 then 0 else 1

/-- Composition of random selection and the send loop in main: the sent-log is
already extended when the transport attempts begin. -/
def email_random_flow (books : List Book) (log_lines : List String) (k : Nat)
    (send_ok : String → Bool) (recipients : List String) :
    Option (List String × (List String × Bool)) :=
  match select_random_book books log_lines k with
  | none => none
  | some (_, new_log) => some (new_log, send_to_recipients send_ok recipients)

/-- A Drive file as seen by send_book_email after resolving a drive_url: its
name, its size in bytes, and its webViewLink. -/
structure DriveFile where
  name : String
  size : Nat
  url : String
deriving DecidableEq

/-- One attachment of a book in send_book_email: the local path and, when the
drive_url resolved to a file whose id and metadata could be fetched, that
Drive file (none covers both a missing drive_url and a failed resolution). -/
structure Attachment where
  local_path : String
  drive : Option DriveFile
deriving DecidableEq

/-- Translation of the attachment loop of send_book_email: walk the
attachments, take the first resolvable Drive file whose size is at most
20 MiB and attach it (break); larger files are skipped and the walk goes on. -/
def pick_email_attachment : List Attachment → Option DriveFile
  | [] => none
  | a :: rest =>
      match a.drive with
      | some f => if f.size ≤ SIZE_LIMIT then some f else pick_email_attachment rest
      | none => pick_email_attachment rest

/-- The MIME message assembled by send_book_email: its plain body and the list
of binary attachment parts. -/
structure EmailMsg where
  body : String
  attachments : List DriveFile
deriving DecidableEq

/-- The Google Drive link lines appended to the body when nothing was
attached: one line per attachment that has a Drive URL. -/
def drive_link_lines (attachments : List Attachment) : List String :=
  attachments.filterMap (fun a => a.drive.map (fun f => a.local_path ++ ": " ++ f.url))

/-- Translation of the message assembly of send_book_email. book_text is the
format_book_text rendering of the book. When no file was attached and some
attachment carries a Drive URL, the links are appended to the body. -/
def send_book_email (book_text : String) (attachments : List Attachment) : EmailMsg :=
  let notice := "\n\nThis email was sent automatically via the <a href=\x27https://hoanganhduc.github.io/library/zotero/list-calibre-collection.py\x27>list-calibre-collection.py</a> script."
  match pick_email_attachment attachments with
  | some f => { body := book_text ++ notice, attachments := [f] }
  | none =>
      let links := drive_link_lines attachments
      let body :=
        if !attachments.isEmpty && !links.isEmpty then
          book_text ++ "\n\nGoogle Drive Links:\n" ++ String.intercalate "\n" links
        else book_text
      { body := body ++ notice, attachments := [] }

/-- Translation of the title-selection block of main: for each --book-title
query, every book whose lowercased title contains the lowercased query is
appended to the selection unless it is already selected. -/
def select_books_by_titles (queries : List String) (books : List Book) : List Book :=
  queries.foldl
    (fun selected q =>
      let title_hits := books.filter (fun b => pyIn (pyLower q) (pyLower b.title))
      title_hits.foldl (fun sel m => if m ∉ sel then sel ++ [m] else sel) selected)
    []

end Calibre

namespace Zotero

/-- One Zotero item in the shape shared by the SQLite reader and the API
reader: key, title, item type. -/
structure ZItem where
  key : String
  title : String
  itemType : String
deriving DecidableEq

/-- Outcome of querying one data source inside get_items: a list of items, or
an exception inside the source (which every source wrapper catches and turns
into an empty list). -/
inductive SrcOutcome where
  | ok (items : List ZItem)
  | err
deriving DecidableEq

/-- The item list a source outcome contributes: an exception is swallowed and
contributes zero results. -/
def srcItems : SrcOutcome → List ZItem
  | SrcOutcome.ok items => items
  | SrcOutcome.err => []

/-- The three data sources of get_items, in priority order. -/
inductive Source where
  | localDb
  | gdrive
  | api
deriving DecidableEq

/-- Translation of get_items. The gdrive parameter is none exactly when no
Google credentials are configured (the step is skipped). The second component
is the trace of the sources actually queried, in order. -/
def get_items (local_db : SrcOutcome) (gdrive : Option SrcOutcome) (api : SrcOutcome) :
    List ZItem × List Source :=
  let local_items := srcItems local_db
  if !local_items.isEmpty then (local_items, [Source.localDb])
  else
    match gdrive with
    | some g =>
        let gdrive_items := srcItems g
        if !gdrive_items.isEmpty then (gdrive_items, [Source.localDb, Source.gdrive])
        else (srcItems api, [Source.localDb, Source.gdrive, Source.api])
    | none => (srcItems api, [Source.localDb, Source.api])

/-- Body of format_item_text / format_item_html for one item, abstracted as an
oracle that may raise. -/
abbrev ItemFormatOracle := Nat → ZItem → Except String String

/-- Translation of format_single_item (HTML variant, the module-level
function of the Zotero script). -/
def format_single_item (fmt : ItemFormatOracle) (collection_name : String)
    (idx : Nat) (item : ZItem) : String :=
  match fmt idx item with
  | Except.ok content =>
      "<div class=\x27item-number\x27>" ++ collection_name ++ " #" ++ toString (idx + 1) ++ "</div>" ++ "\n" ++ content
  | Except.error e =>
      "<div class=\x27item-error\x27>Error formatting item " ++ toString (idx + 1) ++ ": " ++ e ++ "</div>"

/-- Translation of the format_single_item closure inside the Zotero
generate_text_output. -/
def format_single_item_text (fmt : ItemFormatOracle) (collection_name : String)
    (idx : Nat) (item : ZItem) : String :=
  match fmt idx item with
  | Except.ok content =>
      collection_name ++ " #" ++ toString (idx + 1) ++ "\n" ++ content ++ "\n---"
  | Except.error e =>
      "Error formatting item " ++ toString (idx + 1) ++ ": " ++ e ++ "\n---"

/-- The (index, result) pairs of the tasks submitted by the Zotero
generate_text_output, in submission order. -/
def text_tasks (fmt : ItemFormatOracle) (collection_name : String) (items : List ZItem) :
    List (Nat × String) :=
  items.enum.map (fun p => (p.1, format_single_item_text fmt collection_name p.1 p.2))

/-- The (index, result) pairs of the tasks submitted by generate_items_html. -/
def html_tasks (fmt : ItemFormatOracle) (collection_name : String) (items : List ZItem) :
    List (Nat × String) :=
  items.enum.map (fun p => (p.1, format_single_item fmt collection_name p.1 p.2))

/-- Translation of the Zotero generate_text_output, parametrised by the
completion order of the pool. -/
def generate_text_output (title : String) (completed : List (Nat × String)) : String :=
  String.intercalate "\n"
    ([title, String.mk (List.replicate title.length (Char.ofNat 61)), ""] ++ gather completed)

/-- Translation of generate_items_html, parametrised by the completion order. -/
def generate_items_html (completed : List (Nat × String)) : List String :=
  gather completed

/-- Translation of the Zotero generate_html_output restricted to structural
lines (the KaTeX, CSS and search-script blocks are elided as they carry no
record data), parametrised by the completion order. -/
def generate_html_output (title notice : String) (completed : List (Nat × String)) : String :=
  String.intercalate "\n"
    (["<!DOCTYPE html>", "<html>", "<head>",
      "<title>" ++ title ++ "</title>", "</head>", "<body>",
      "<h1>" ++ title ++ "</h1>",
      "<div class=\x27notice\x27>" ++ notice ++ "</div>"] ++
     generate_items_html completed ++ ["</body>", "</html>"])

/-- Translation of display_items. The shape mirrors Calibre.display_books;
the empty-list guard prints No items found. and returns at once. -/
def display_items (fmt : ItemFormatOracle) (title notice collection_name : String)
    (items : List ZItem) (output_format : OutputFormat) (output_file : Option String)
    (pdf_engine_ok : Bool) : List Effect × Nat :=
  if items.isEmpty then ([Effect.console "No items found."], 0)
  else
    match output_format with
    | OutputFormat.text =>
        let content := generate_text_output title (text_tasks fmt collection_name items)
        match output_file with
        | some f => ([Effect.fileWrite f content, Effect.console ("Text output saved to " ++ f)], 0)
        | none => ([Effect.console content], 0)
    | OutputFormat.html =>
        let content := generate_html_output title notice (html_tasks fmt collection_name items)
        match output_file with
        | some f => ([Effect.fileWrite f content, Effect.console ("HTML output saved to " ++ f)], 0)
        | none => ([Effect.console content], 0)
    | OutputFormat.pdf =>
        let content := generate_html_output title notice (html_tasks fmt collection_name items)
        let f := (match output_file with | some f => f | none => "zotero_items.pdf")
        if pdf_engine_ok then
          ([Effect.fileWrite f content, Effect.console ("PDF output saved to " ++ f)], 0)
        else ([Effect.console "Error generating PDF with pdfkit"], 1)

/-- The listing path of the Zotero main: get_items never raises (every source
failure is swallowed), so the flow reaches display_items and the top-level
exception handler, which alone produces exit code 1, is not triggered by a
source failure. -/
def zotero_list_run (fmt : ItemFormatOracle) (title notice collection_name : String)
    (local_db : SrcOutcome) (gdrive : Option SrcOutcome) (api : SrcOutcome)
    (output_format : OutputFormat) (output_file : Option String) (pdf_engine_ok : Bool) :
    List Effect × Nat :=
  display_items fmt title notice collection_name (get_items local_db gdrive api).1
    output_format output_file pdf_engine_ok

/-- One row of the joined title query of search_sqlite_db: item key, type
name, title value, and whether the item is listed in deletedItems. -/
structure DbRow where
  key : String
  typeName : String
  title : String
  deleted : Bool
deriving DecidableEq

/-- The WHERE clause of search_sqlite_db for one query term: the title LIKE
pattern (SQLite LIKE is case-insensitive on ASCII, modelled by lowercasing
both sides), not deleted, type neither note nor attachment, and the optional
item-type equality. -/
def row_matches (q : String) (item_type : Option String) (r : DbRow) : Bool :=
  pyIn (pyLower q) (pyLower r.title) && !r.deleted &&
  r.typeName != "note" && r.typeName != "attachment" &&
  (match item_type with | some t => r.typeName == t | none => true)

/-- The row set returned by the SQL statement for one query term, with its
LIMIT max_results. -/
def sql_query_rows (rows : List DbRow) (q : String) (item_type : Option String)
    (max_results : Nat) : List DbRow :=
  (rows.filter (row_matches q item_type)).take max_results

/-- Conversion of a row to the API-like item dictionary built by
search_sqlite_db. -/
def row_to_item (r : DbRow) : ZItem :=
  { key := r.key, title := r.title, itemType := r.typeName }

/-- Translation of search_sqlite_db: iterate the query terms, run the SQL
statement for each, and append a hit only when its key was not seen before
(the seen_keys set is exactly the key set of the accumulated results). -/
def search_sqlite_db (rows : List DbRow) (queries : List String) (item_type : Option String)
    (max_results : Nat) : List ZItem :=
  queries.foldl
    (fun results q =>
      (sql_query_rows rows q item_type max_results).foldl
        (fun res r => if r.key ∉ res.map ZItem.key then res ++ [row_to_item r] else res)
        results)
    []

/-- The item filter of search_zotero_api: attachments and notes are dropped. -/
def api_keeps (item : ZItem) : Bool :=
  item.itemType != "attachment" && item.itemType != "note"

/-- Translation of search_zotero_api: api_results q models zot.items for the
query q (with its server-side limit); an item is appended when it passes the
type filter and its key is not already collected. -/
def search_zotero_api (api_results : String → List ZItem) (queries : List String) : List ZItem :=
  queries.foldl
    (fun all_results q =>
      (api_results q).foldl
        (fun res item =>
          if api_keeps item ∧ item.key ∉ res.map ZItem.key then res ++ [item] else res)
        all_results)
    []

/-- Translation of the random branch of send_paper_by_email: random.choice
over all journal articles, modelled by the index k modulo the list length.
No sent-log is consulted and none is written. -/
def zotero_random_paper (all_papers : List ZItem) (k : Nat) : Option ZItem :=
  if h : all_papers = [] then none
  else some (all_papers.get ⟨k % all_papers.length, Nat.mod_lt k (List.length_pos.mpr h)⟩)

/-- One attachment of a paper inside send_paper_by_email, after the Drive URL
resolved to a file id: filename, the Drive URL, the downloaded size (0 when
the download failed), the temp path, and the download success flag. -/
structure PaperAttachment where
  filename : String
  drive_url : String
  size : Nat
  path : String
  success : Bool
deriving DecidableEq

/-- One entry of paper_info_list: the paper title and its attachments. -/
structure PaperInfo where
  title : String
  attachments : List PaperAttachment
deriving DecidableEq

/-- The running total_size of send_paper_by_email: sizes of successfully
downloaded attachments over all papers. -/
def attachment_total_size (papers : List PaperInfo) : Nat :=
  (papers.map (fun p => ((p.attachments.filter (fun a => a.success)).map (fun a => a.size)).sum)).sum

/-- The attachment lines of the default body: when the size limit is exceeded
or the download failed, the line carries the Drive URL; otherwise only the
filename. -/
def body_attachment_lines (exceed : Bool) (p : PaperInfo) : List String :=
  p.attachments.map (fun a =>
    if exceed || !a.success then "- " ++ a.filename ++ " - " ++ a.drive_url
    else "- " ++ a.filename)

/-- The email assembled by send_paper_by_email: the body lines and the file
paths passed to send_email_with_attachments as binary parts. -/
structure ZEmail where
  body_lines : List String
  attachment_paths : List String
deriving DecidableEq

/-- Translation of the size check and dispatch of send_paper_by_email: when
total size exceeds 20 MiB the message is sent with attachments=None and the
body carries the Drive links; otherwise all successfully downloaded files are
attached. -/
def send_paper_email (papers : List PaperInfo) : ZEmail :=
  let exceed := decide (attachment_total_size papers > SIZE_LIMIT)
  let body_lines :=
    (papers.map (fun p => ("## " ++ p.title) :: body_attachment_lines exceed p)).flatten
  if exceed then { body_lines := body_lines, attachment_paths := [] }
  else
    { body_lines := body_lines,
      attachment_paths :=
        (papers.map (fun p => (p.attachments.filter (fun a => a.success)).map (fun a => a.path))).flatten }

end Zotero

section ConcreteInputs

/-- Concrete formatting oracle used to evaluate C1 on a small input. -/
def w1_fmt : Calibre.FormatOracle := fun _ b => Except.ok b.title

/-- Concrete Zotero formatting oracle for the C1 evaluation. -/
def w1_zfmt : Zotero.ItemFormatOracle := fun _ it => Except.ok it.title

/-- Concrete two-book catalog for the C1 evaluation. -/
def w1_books : List Calibre.Book :=
  [{ id := 1, title := "A", tags := [], timestamp := 10 },
   { id := 2, title := "B", tags := [], timestamp := 5 }]

/-- Concrete two-item library for the C1 evaluation. -/
def w1_items : List Zotero.ZItem :=
  [{ key := "K1", title := "P", itemType := "journalArticle" },
   { key := "K2", title := "Q", itemType := "journalArticle" }]

/-- A reversed (out of submission order) completion of the text tasks. -/
def w1_ct : List (Nat × String) := (Calibre.text_tasks w1_fmt w1_books).reverse

/-- A reversed completion of the HTML tasks. -/
def w1_ch : List (Nat × String) := (Calibre.html_tasks w1_fmt w1_books).reverse

/-- A reversed completion of the Zotero text tasks. -/
def w1_zt : List (Nat × String) := (Zotero.text_tasks w1_zfmt "C" w1_items).reverse

/-- A reversed completion of the Zotero HTML tasks. -/
def w1_zh : List (Nat × String) := (Zotero.html_tasks w1_zfmt "C" w1_items).reverse

/-- Concrete one-item source content used to evaluate C2. -/
def w2_item : Zotero.ZItem := { key := "KA", title := "R", itemType := "book" }

/-- Concrete transport outcome for C3: sending to recipient a fails, sending
to any other recipient would succeed. -/
def c3_send : String → Bool := fun r => r != "a"

/-- Concrete journal article whose key appears in the sent-log of the C4
counterexample. -/
def c4_item : Zotero.ZItem := { key := "K1", title := "Paper", itemType := "journalArticle" }

/-- Concrete one-book catalog for the C4 evaluation. -/
def c4w_book : Calibre.Book := { id := 7, title := "T", tags := [], timestamp := 1 }

/-- Catalog list wrapping the C4 book. -/
def c4w_books : List Calibre.Book := [c4w_book]

/-- Trivial Zotero formatting oracle for the C5 counterexample run. -/
def c5_fmt : Zotero.ItemFormatOracle := fun _ _ => Except.ok ""

/-- Concrete 25 MiB Drive file of the C6 scenario. -/
def c6_file : Calibre.DriveFile :=
  { name := "book.pdf", size := 25 * 1024 * 1024,
    url := "https://drive.google.com/file/d/XYZ/view" }

/-- Concrete attachment carrying the 25 MiB file. -/
def c6_att : Calibre.Attachment :=
  { local_path := "Calibre Library/book.pdf", drive := some c6_file }

/-- Concrete 25 MiB downloaded paper attachment of the C6 Zotero scenario. -/
def c6_patt : Zotero.PaperAttachment :=
  { filename := "paper.pdf", drive_url := "https://drive.google.com/file/d/ABC/view",
    size := 25 * 1024 * 1024, path := "/tmp/paper.pdf", success := true }

/-- Concrete paper holding the 25 MiB attachment. -/
def c6_paper : Zotero.PaperInfo := { title := "Paper", attachments := [c6_patt] }

/-- Concrete formatting oracle of the C7 scenario: record index 2 (the third
of five) raises, the others format normally. -/
def c7_fmt : Calibre.FormatOracle :=
  fun i _ => if i = 2 then Except.error "boom" else Except.ok ("content" ++ toString i)

/-- Concrete five-book catalog of the C7 scenario. -/
def c7_books : List Calibre.Book :=
  [{ id := 1, title := "B1", tags := [], timestamp := 5 },
   { id := 2, title := "B2", tags := [], timestamp := 4 },
   { id := 3, title := "B3", tags := [], timestamp := 3 },
   { id := 4, title := "B4", tags := [], timestamp := 2 },
   { id := 5, title := "B5", tags := [], timestamp := 1 }]

/-- A reversed completion order of the C7 formatting tasks. -/
def c7_completed : List (Nat × String) := (Calibre.html_tasks c7_fmt c7_books).reverse

/-- Concrete books of the C8 scenario: two carry the tag math, one does not;
timestamps make the fetch order b1, b2, b3. -/
def c8_b1 : Calibre.Book := { id := 1, title := "Algebra", tags := ["math"], timestamp := 30 }

/-- Second C8 book, tagged physics only. -/
def c8_b2 : Calibre.Book := { id := 2, title := "Mechanics", tags := ["physics"], timestamp := 20 }

/-- Third C8 book, tagged math and logic. -/
def c8_b3 : Calibre.Book := { id := 3, title := "Logic", tags := ["math", "logic"], timestamp := 10 }

end ConcreteInputs

/-- Reassembly lemma: whatever order the pool completes the (index, fragment)
tasks in, sorting by index recovers the fragments in submission order. -/
theorem gather_perm_enum (frags : List String) (completed : List (Nat × String))
    (h : completed.Perm frags.enum) : gather completed = frags := by
  have hperm : (List.insertionSort KeyLE completed).Perm frags.enum :=
    (List.perm_insertionSort KeyLE completed).trans h
  have hsorted : List.Sorted KeyLE (List.insertionSort KeyLE completed) :=
    List.sorted_insertionSort KeyLE completed
  have henum : List.Pairwise (fun a b : Nat × String => a.1 < b.1) frags.enum := by
    have := List.pairwise_lt_range frags.length
    rw [← List.enum_map_fst frags] at this
    exact (List.pairwise_map).mp this
  have hne : List.Pairwise (fun a b : Nat × String => a.1 ≠ b.1) frags.enum :=
    henum.imp (fun h => Nat.ne_of_lt h)
  have hneS : List.Pairwise (fun a b : Nat × String => a.1 ≠ b.1)
      (List.insertionSort KeyLE completed) :=
    (List.Perm.pairwise_iff (fun {x y} hxy => Ne.symm hxy) hperm).mpr hne
  have hlt : List.Pairwise (fun a b : Nat × String => a.1 < b.1)
      (List.insertionSort KeyLE completed) :=
    (hsorted.and hneS).imp (fun ⟨h1, h2⟩ => Nat.lt_of_le_of_ne h1 h2)
  have heq : List.insertionSort KeyLE completed = frags.enum := by
    have hanti : IsAntisymm (Nat × String) (fun a b => a.1 < b.1) :=
      ⟨fun a b h1 h2 => absurd h2 (Nat.lt_asymm h1)⟩
    exact @List.eq_of_perm_of_sorted _ _ hanti _ _ hperm hlt henum
  rw [gather, heq, List.enum_map_snd]

/-- Technical identity: tagging each enumerated element with its own index is
the same as enumerating the list of results. -/
theorem keyed_enum_eq {α : Type} (g : Nat → α → String) (l : List α) :
    l.enum.map (fun p => (p.1, g p.1 p.2)) = (l.enum.map (fun p => g p.1 p.2)).enum := by
  apply List.ext_getElem
  · simp
  · intro n h1 h2
    simp [List.getElem_enum]

/-- Reassembly lemma in the keyed form used by both renderers: a completed
permutation of the submitted tasks gathers to the in-order results. -/
theorem gather_perm_keyed {α : Type} (g : Nat → α → String) (l : List α)
    (completed : List (Nat × String))
    (h : completed.Perm (l.enum.map (fun p => (p.1, g p.1 p.2)))) :
    gather completed = l.enum.map (fun p => g p.1 p.2) := by
  rw [keyed_enum_eq] at h
  exact gather_perm_enum _ _ h

/-- C1: for every list of records and every completion order of the concurrent
per-record formatting tasks, the report output carries the rendered fragments
in the original fetch order (fragment for record i precedes the one for
record j whenever i < j), in the text, HTML and PDF encodings, for both
scripts (the PDF document is determined by the rendered HTML). -/
theorem c1_render_order_stable
    (fmt : Calibre.FormatOracle) (zfmt : Zotero.ItemFormatOracle)
    (title notice coll : String)
    (books : List Calibre.Book) (items : List Zotero.ZItem)
    (ct ch zt zh : List (Nat × String))
    (hct : ct.Perm (Calibre.text_tasks fmt books))
    (hch : ch.Perm (Calibre.html_tasks fmt books))
    (hzt : zt.Perm (Zotero.text_tasks zfmt coll items))
    (hzh : zh.Perm (Zotero.html_tasks zfmt coll items)) :
    Calibre.generate_text_output title ct
        = String.intercalate "\n" (Calibre.text_header title
            ++ books.enum.map (fun p => Calibre.format_single_book_text fmt p.1 p.2))
  ∧ Calibre.generate_books_html ch
        = books.enum.map (fun p => Calibre.format_single_book fmt p.1 p.2)
  ∧ Calibre.generate_html_output title notice ch
        = Calibre.generate_html_output_run fmt title notice books
  ∧ Calibre.pdf_of_html (Calibre.generate_html_output title notice ch)
        = Calibre.pdf_of_html (Calibre.generate_html_output_run fmt title notice books)
  ∧ Zotero.generate_text_output title zt
        = String.intercalate "\n"
            ([title, String.mk (List.replicate title.length (Char.ofNat 61)), ""]
              ++ items.enum.map (fun p => Zotero.format_single_item_text zfmt coll p.1 p.2))
  ∧ Zotero.generate_items_html zh
        = items.enum.map (fun p => Zotero.format_single_item zfmt coll p.1 p.2)
  ∧ Zotero.generate_html_output title notice zh
        = Zotero.generate_html_output title notice (Zotero.html_tasks zfmt coll items) := by
  have gct := gather_perm_keyed (fun i b => Calibre.format_single_book_text fmt i b) books ct hct
  have gch := gather_perm_keyed (fun i b => Calibre.format_single_book fmt i b) books ch hch
  have gchr := gather_perm_keyed (fun i b => Calibre.format_single_book fmt i b) books
    (Calibre.html_tasks fmt books) (List.Perm.refl _)
  have gzt := gather_perm_keyed (fun i it => Zotero.format_single_item_text zfmt coll i it) items zt hzt
  have gzh := gather_perm_keyed (fun i it => Zotero.format_single_item zfmt coll i it) items zh hzh
  have gzhr := gather_perm_keyed (fun i it => Zotero.format_single_item zfmt coll i it) items
    (Zotero.html_tasks zfmt coll items) (List.Perm.refl _)
  refine ⟨?_, ?_, ?_, ?_, ?_, ?_, ?_⟩
  · rw [Calibre.generate_text_output, gct]
  · rw [Calibre.generate_books_html, gch]
  · rw [Calibre.generate_html_output_run, Calibre.generate_html_output,
      Calibre.generate_html_output, Calibre.generate_books_html, Calibre.generate_books_html,
      gch, gchr]
  · rw [Calibre.generate_html_output_run, Calibre.generate_html_output,
      Calibre.generate_html_output, Calibre.generate_books_html, Calibre.generate_books_html,
      gch, gchr]
  · rw [Zotero.generate_text_output, gzt]
  · rw [Zotero.generate_items_html, gzh]
  · rw [Zotero.generate_html_output, Zotero.generate_html_output,
      Zotero.generate_items_html, Zotero.generate_items_html, gzh, gzhr]

/-- Witness for C1: the theorem applied to a two-record catalog with the
completion order reversed; the permutation hypotheses are checked by decide. -/
theorem c1_render_order_stable_witness :
    Calibre.generate_text_output "T" w1_ct
        = String.intercalate "\n" (Calibre.text_header "T"
            ++ w1_books.enum.map (fun p => Calibre.format_single_book_text w1_fmt p.1 p.2))
  ∧ Calibre.generate_books_html w1_ch
        = w1_books.enum.map (fun p => Calibre.format_single_book w1_fmt p.1 p.2)
  ∧ Calibre.generate_html_output "T" "N" w1_ch
        = Calibre.generate_html_output_run w1_fmt "T" "N" w1_books
  ∧ Calibre.pdf_of_html (Calibre.generate_html_output "T" "N" w1_ch)
        = Calibre.pdf_of_html (Calibre.generate_html_output_run w1_fmt "T" "N" w1_books)
  ∧ Zotero.generate_text_output "T" w1_zt
        = String.intercalate "\n"
            (["T", String.mk (List.replicate "T".length (Char.ofNat 61)), ""]
              ++ w1_items.enum.map (fun p => Zotero.format_single_item_text w1_zfmt "C" p.1 p.2))
  ∧ Zotero.generate_items_html w1_zh
        = w1_items.enum.map (fun p => Zotero.format_single_item w1_zfmt "C" p.1 p.2)
  ∧ Zotero.generate_html_output "T" "N" w1_zh
        = Zotero.generate_html_output "T" "N" (Zotero.html_tasks w1_zfmt "C" w1_items) :=
  c1_render_order_stable w1_fmt w1_zfmt "T" "N" "C" w1_books w1_items
    w1_ct w1_ch w1_zt w1_zh (by decide) (by decide) (by decide) (by decide)

/-- C2: the Source Locator never queries source N+1 when source N yielded at
least one record, returns exactly the result set of the first source that
yielded records, and never merges results across sources; the calibre
database locator likewise returns the local connection without touching
Drive whenever the local file exists. -/
theorem c2_source_locator_short_circuit
    (l : Zotero.SrcOutcome) (g : Option Zotero.SrcOutcome) (a : Zotero.SrcOutcome) :
    (Zotero.srcItems l ≠ [] →
       Zotero.get_items l g a = (Zotero.srcItems l, [Zotero.Source.localDb]))
  ∧ (∀ go, g = some go → Zotero.srcItems l = [] → Zotero.srcItems go ≠ [] →
       Zotero.get_items l g a
         = (Zotero.srcItems go, [Zotero.Source.localDb, Zotero.Source.gdrive]))
  ∧ (∀ go, g = some go → Zotero.srcItems l = [] → Zotero.srcItems go = [] →
       Zotero.get_items l g a
         = (Zotero.srcItems a, [Zotero.Source.localDb, Zotero.Source.gdrive, Zotero.Source.api]))
  ∧ (g = none → Zotero.srcItems l = [] →
       Zotero.get_items l g a = (Zotero.srcItems a, [Zotero.Source.localDb, Zotero.Source.api]))
  ∧ ((Zotero.get_items l g a).1 = Zotero.srcItems l
      ∨ (∃ go, g = some go ∧ (Zotero.get_items l g a).1 = Zotero.srcItems go)
      ∨ (Zotero.get_items l g a).1 = Zotero.srcItems a)
  ∧ (∀ lib gd, Calibre.connect_to_calibre_db lib true gd
        = Except.ok Calibre.CalibreConn.localConn) := by
  refine ⟨?_, ?_, ?_, ?_, ?_, ?_⟩
  · intro hl
    simp [Zotero.get_items, hl]
  · intro go hg hl hgo
    subst hg
    simp [Zotero.get_items, hl, hgo]
  · intro go hg hl hgo
    subst hg
    simp [Zotero.get_items, hl, hgo]
  · intro hg hl
    subst hg
    simp [Zotero.get_items, hl]
  · by_cases hl : Zotero.srcItems l = []
    · match g with
      | some go =>
          by_cases hgo : Zotero.srcItems go = []
          · right; right; simp [Zotero.get_items, hl, hgo]
          · right; left; exact ⟨go, rfl, by simp [Zotero.get_items, hl, hgo]⟩
      | none => right; right; simp [Zotero.get_items, hl]
    · left; simp [Zotero.get_items, hl]
  · intro lib gd
    simp [Calibre.connect_to_calibre_db]

/-- Witness for C2: a non-empty local source short-circuits the run. -/
theorem c2_source_locator_short_circuit_witness :
    Zotero.get_items (Zotero.SrcOutcome.ok [w2_item]) (some Zotero.SrcOutcome.err)
        Zotero.SrcOutcome.err
      = ([w2_item], [Zotero.Source.localDb]) :=
  (c2_source_locator_short_circuit (Zotero.SrcOutcome.ok [w2_item])
    (some Zotero.SrcOutcome.err) Zotero.SrcOutcome.err).1 (by decide)

/-- C3 counterexample: with recipients a and b where the transport to a fails,
the calibre send loop attempts only a; the attempt to b, which would have
succeeded, never happens, and the run exits 1. This refutes the claim that a
transport failure for one recipient does not prevent the remaining attempts. -/
theorem c3_per_recipient_isolation_counterexample :
    (Calibre.send_to_recipients c3_send ["a", "b"]).1 = ["a"]
  ∧ "b" ∉ (Calibre.send_to_recipients c3_send ["a", "b"]).1
  ∧ c3_send "b" = true
  ∧ Calibre.email_mode_exit c3_send ["a", "b"] = 1 := by decide

/-- Characterisation of the calibre send loop: the attempted recipients are
the prefix of successes followed by the first failure, if any. -/
theorem send_to_recipients_eq (send_ok : String → Bool) (recipients : List String) :
    Calibre.send_to_recipients send_ok recipients
      = (recipients.takeWhile send_ok ++ (recipients.dropWhile send_ok).take 1,
         recipients.all send_ok) := by
  induction recipients with
  | nil => rfl
  | cons r rest ih =>
      by_cases hr : send_ok r = true
      · simp [Calibre.send_to_recipients, hr, ih, List.takeWhile_cons, List.dropWhile_cons]
      · simp [Calibre.send_to_recipients, hr, List.takeWhile_cons, List.dropWhile_cons,
          Bool.eq_false_iff.mpr hr]

/-- C3 amended: in the calibre script a transport failure for one recipient
raises and aborts the remaining attempts; the attempted recipients are
exactly the successful prefix plus the first failing recipient, and the run
exits 0 only when every attempt succeeded (the per-attempt outcome is not
inspected by the caller; the exception reaches the top-level handler). -/
theorem c3_send_loop_aborts_on_failure (send_ok : String → Bool) (recipients : List String) :
    Calibre.send_to_recipients send_ok recipients
      = (recipients.takeWhile send_ok ++ (recipients.dropWhile send_ok).take 1,
         recipients.all send_ok)
  ∧ Calibre.email_mode_exit send_ok recipients
      = (if recipients.all send_ok then 0 else 1) := by
  refine ⟨send_to_recipients_eq send_ok recipients, ?_⟩
  rw [Calibre.email_mode_exit, send_to_recipients_eq send_ok recipients]

/-- C4 counterexample: the zotero random mode keeps no sent-log; with a
sent-log state containing key K1 and a catalog holding only the item with
key K1, the zotero random selection still returns that item (its selector
takes no sent-log input at all and appends nothing anywhere), refuting the
claim for the zotero script. -/
theorem c4_sent_log_counterexample :
    Zotero.zotero_random_paper [c4_item] 0 = some c4_item
  ∧ c4_item.key ∈ ["K1"] := by decide

/-- Characterisation of a successful select_random_book: the chosen book is a
catalog book whose id is not in the sent-log, and the returned log is the old
log with the chosen id appended. -/
theorem select_random_book_some (books : List Calibre.Book) (log_lines : List String)
    (k : Nat) (b : Calibre.Book) (new_log : List String)
    (h : Calibre.select_random_book books log_lines k = some (b, new_log)) :
    b ∈ books.filter (fun bb => decide (toString bb.id ∉ Calibre.read_sent_ids log_lines))
    ∧ new_log = log_lines ++ [toString b.id] := by
  rw [Calibre.select_random_book] at h
  split at h
  · exact absurd h (by simp)
  · injection h with h2
    rw [Prod.mk.injEq] at h2
    obtain ⟨hb, hlog⟩ := h2
    subst hb
    exact ⟨List.get_mem _ _ _, hlog.symm⟩

/-- C4 amended: in the calibre script random selection never picks a book
whose id is in the sent-log and appends the chosen id to the log immediately
after selection, before any transport attempt, so a failed send still leaves
the id in the log for the next invocation; the zotero random mode merely
picks some element of the full journal-article list. -/
theorem c4_random_selection_sent_log :
    (∀ (books : List Calibre.Book) (log_lines : List String) (k : Nat)
        (b : Calibre.Book) (new_log : List String),
       Calibre.select_random_book books log_lines k = some (b, new_log) →
         toString b.id ∉ Calibre.read_sent_ids log_lines
         ∧ b ∈ books
         ∧ new_log = log_lines ++ [toString b.id]
         ∧ (∀ (send_ok : String → Bool) (recipients : List String),
              Calibre.email_random_flow books log_lines k send_ok recipients
                = some (new_log, Calibre.send_to_recipients send_ok recipients))
         ∧ (pyStrip (toString b.id) = toString b.id → toString b.id ≠ "" →
              toString b.id ∈ Calibre.read_sent_ids new_log))
  ∧ (∀ (papers : List Zotero.ZItem) (k : Nat) (p : Zotero.ZItem),
       Zotero.zotero_random_paper papers k = some p → p ∈ papers) := by
  constructor
  · intro books log_lines k b new_log h
    obtain ⟨hmem, hlog⟩ := select_random_book_some books log_lines k b new_log h
    have hfil := (List.mem_filter.mp hmem).2
    have hnotin : toString b.id ∉ Calibre.read_sent_ids log_lines := by simpa using hfil
    refine ⟨hnotin, (List.mem_filter.mp hmem).1, hlog, ?_, ?_⟩
    · intro send_ok recipients
      rw [Calibre.email_random_flow, h]
    · intro hstrip hzero
      rw [hlog]
      simp only [Calibre.read_sent_ids, List.map_append, List.filter_append,
        List.mem_append, List.map_cons, List.map_nil, hstrip]
      right
      simp [List.mem_filter, bne_iff_ne, hzero]
  · intro papers k p h
    rw [Zotero.zotero_random_paper] at h
    split at h
    · exact absurd h (by simp)
    · injection h with h2
      rw [← h2]
      exact List.get_mem _ _ _

/-- Witness for C4 amended: on a one-book catalog with sent-log line 3, the
selected id 7 was not in the log and is in the log read on the next run. -/
theorem c4_random_selection_sent_log_witness :
    toString c4w_book.id ∉ Calibre.read_sent_ids ["3"]
  ∧ toString c4w_book.id ∈ Calibre.read_sent_ids (["3"] ++ [toString c4w_book.id]) := by
  have h := c4_random_selection_sent_log.1 c4w_books ["3"] 0 c4w_book
    (["3"] ++ [toString c4w_book.id]) (by decide)
  exact ⟨h.1, h.2.2.2.2 (by decide) (by decide)⟩

/-- C5 counterexample: with every source failing (local database error, no
Drive credentials, API error) the zotero listing run does not fail with a
NotFound condition; it prints No items found. and exits 0. -/
theorem c5_notfound_counterexample :
    Zotero.zotero_list_run c5_fmt "T" "N" "C" Zotero.SrcOutcome.err none
        Zotero.SrcOutcome.err OutputFormat.text none true
      = ([Effect.console "No items found."], 0) := by decide

/-- C5 amended: a failing source inside the zotero locator is swallowed and
indistinguishable from a source with zero results, and when no source yields
records the zotero run returns an empty set, prints No items found. and exits
0 rather than failing; only the calibre locator fails, with a FileNotFoundError
naming the local path and Google Drive when the database is found in neither
place, or naming the underlying error when the Drive interaction raised. -/
theorem c5_source_failure_swallowed :
    (∀ (g : Option Zotero.SrcOutcome) (a : Zotero.SrcOutcome),
       Zotero.get_items Zotero.SrcOutcome.err g a
         = Zotero.get_items (Zotero.SrcOutcome.ok []) g a)
  ∧ (∀ (l : Zotero.SrcOutcome) (a : Zotero.SrcOutcome),
       Zotero.get_items l (some Zotero.SrcOutcome.err) a
         = Zotero.get_items l (some (Zotero.SrcOutcome.ok [])) a)
  ∧ (∀ (l : Zotero.SrcOutcome) (g : Option Zotero.SrcOutcome),
       Zotero.srcItems l = [] → (∀ go, g = some go → Zotero.srcItems go = []) →
       (Zotero.get_items l g Zotero.SrcOutcome.err).1 = [])
  ∧ (∀ (fmt : Zotero.ItemFormatOracle) (title notice coll : String)
        (ofmt : OutputFormat) (ofile : Option String) (pok : Bool),
       Zotero.zotero_list_run fmt title notice coll Zotero.SrcOutcome.err none
           Zotero.SrcOutcome.err ofmt ofile pok
         = ([Effect.console "No items found."], 0))
  ∧ (∀ lib, Calibre.connect_to_calibre_db lib false none
       = Except.error ("Calibre database not found at " ++ lib
           ++ "/metadata.db and not found in Google Drive."))
  ∧ (∀ lib, Calibre.connect_to_calibre_db lib false (some Calibre.GDriveLookup.notFound)
       = Except.error ("Calibre database not found at " ++ lib
           ++ "/metadata.db and not found in Google Drive."))
  ∧ (∀ lib msg, Calibre.connect_to_calibre_db lib false (some (Calibre.GDriveLookup.raised msg))
       = Except.error ("Could not find or download Calibre database: " ++ msg))
  ∧ (∀ lib gd, Calibre.connect_to_calibre_db lib true gd
       = Except.ok Calibre.CalibreConn.localConn) := by
  refine ⟨?_, ?_, ?_, ?_, ?_, ?_, ?_, ?_⟩
  · intro g a; rfl
  · intro l a; rfl
  · intro l g hl hg
    have herr : Zotero.srcItems Zotero.SrcOutcome.err = [] := rfl
    match g with
    | none => simp [Zotero.get_items, hl, herr]
    | some go => simp [Zotero.get_items, hl, herr, hg go rfl]
  · intro fmt title notice coll ofmt ofile pok
    rfl
  · intro lib; simp [Calibre.connect_to_calibre_db, String.append_assoc]
  · intro lib; simp [Calibre.connect_to_calibre_db, String.append_assoc]
  · intro lib msg; rfl
  · intro lib gd; simp [Calibre.connect_to_calibre_db]

/-- Witness for C5 amended: the swallowing clause evaluated with both
remaining sources empty. -/
theorem c5_source_failure_swallowed_witness :
    (Zotero.get_items (Zotero.SrcOutcome.ok []) none Zotero.SrcOutcome.err).1 = [] :=
  c5_source_failure_swallowed.2.2.1 (Zotero.SrcOutcome.ok []) none rfl
    (fun _ hgo => Option.noConfusion hgo)

/-- The attachment picked by send_book_email is never larger than 20 MiB. -/
theorem pick_email_attachment_size (atts : List Calibre.Attachment) (f : Calibre.DriveFile)
    (h : Calibre.pick_email_attachment atts = some f) : f.size ≤ SIZE_LIMIT := by
  induction atts with
  | nil => exact absurd h (by simp [Calibre.pick_email_attachment])
  | cons a rest ih =>
      rw [Calibre.pick_email_attachment] at h
      match ha : a.drive with
      | some g =>
          rw [ha] at h
          dsimp only at h
          by_cases hs : g.size ≤ SIZE_LIMIT
          · rw [if_pos hs] at h
            injection h with h2
            rw [← h2]; exact hs
          · rw [if_neg hs] at h
            exact ih h
      | none =>
          rw [ha] at h
          dsimp only at h
          exact ih h

/-- Every size of a successful attachment of some paper is bounded by the
total size accumulated by send_paper_by_email. -/
theorem size_le_total (papers : List Zotero.PaperInfo) (p : Zotero.PaperInfo)
    (a : Zotero.PaperAttachment) (hp : p ∈ papers) (ha : a ∈ p.attachments)
    (hs : a.success = true) : a.size ≤ Zotero.attachment_total_size papers := by
  have h1 : a.size ∈ (p.attachments.filter (fun x => x.success)).map (fun x => x.size) :=
    List.mem_map.mpr ⟨a, List.mem_filter.mpr ⟨ha, hs⟩, rfl⟩
  have h2 : a.size ≤ ((p.attachments.filter (fun x => x.success)).map (fun x => x.size)).sum :=
    List.single_le_sum (fun x _ => Nat.zero_le x) _ h1
  have h3 : ((p.attachments.filter (fun x => x.success)).map (fun x => x.size)).sum
      ∈ papers.map (fun q => ((q.attachments.filter (fun x => x.success)).map (fun x => x.size)).sum) :=
    List.mem_map.mpr ⟨p, hp, rfl⟩
  have h4 := List.single_le_sum (fun x (_ : x ∈ papers.map _) => Nat.zero_le x) _ h3
  exact Nat.le_trans h2 h4

/-- C6: a mailer attaches cloud-fetched files only within the 20 MiB limit:
the calibre message carries at most one binary part and any attached file is
at most 20 MiB, while a 25 MiB file yields zero binary parts and the Drive
link in the body; the zotero mailer attaches nothing when the total exceeds
20 MiB (each body line then carries the Drive URL) and otherwise every
attached file is within the limit, in particular a 25 MiB total yields zero
binary parts and link lines. -/
theorem c6_attachment_size_threshold :
    (∀ (book_text : String) (atts : List Calibre.Attachment),
        (Calibre.send_book_email book_text atts).attachments.length ≤ 1
      ∧ ∀ f ∈ (Calibre.send_book_email book_text atts).attachments, f.size ≤ SIZE_LIMIT)
  ∧ ((Calibre.send_book_email "TEXT" [c6_att]).attachments = []
      ∧ pyIn c6_file.url (Calibre.send_book_email "TEXT" [c6_att]).body = true)
  ∧ (∀ (papers : List Zotero.PaperInfo),
        (Zotero.attachment_total_size papers > SIZE_LIMIT →
           (Zotero.send_paper_email papers).attachment_paths = []
         ∧ ∀ p ∈ papers, ∀ a ∈ p.attachments,
             ("- " ++ a.filename ++ " - " ++ a.drive_url)
               ∈ (Zotero.send_paper_email papers).body_lines)
      ∧ (Zotero.attachment_total_size papers ≤ SIZE_LIMIT →
           ∀ p ∈ papers, ∀ a ∈ p.attachments, a.success = true → a.size ≤ SIZE_LIMIT))
  ∧ ((Zotero.send_paper_email [c6_paper]).attachment_paths = []
      ∧ ("- " ++ c6_patt.filename ++ " - " ++ c6_patt.drive_url)
          ∈ (Zotero.send_paper_email [c6_paper]).body_lines) := by
  refine ⟨?_, ⟨by decide, by decide⟩, ?_, ⟨by decide, by decide⟩⟩
  · intro book_text atts
    match hpick : Calibre.pick_email_attachment atts with
    | some f =>
        constructor
        · simp [Calibre.send_book_email, hpick]
        · intro g hg
          simp [Calibre.send_book_email, hpick] at hg
          rw [hg]
          exact pick_email_attachment_size atts f hpick
    | none =>
        constructor
        · simp [Calibre.send_book_email, hpick]
        · intro g hg
          simp [Calibre.send_book_email, hpick] at hg
  · intro papers
    constructor
    · intro hex
      have hdec : decide (Zotero.attachment_total_size papers > SIZE_LIMIT) = true :=
        decide_eq_true hex
      constructor
      · simp [Zotero.send_paper_email, hdec]
      · intro p hp a ha
        simp only [Zotero.send_paper_email, hdec]
        apply List.mem_flatten.mpr
        refine ⟨("## " ++ p.title) :: Zotero.body_attachment_lines true p, ?_, ?_⟩
        · exact List.mem_map.mpr ⟨p, hp, rfl⟩
        · apply List.mem_cons_of_mem
          exact List.mem_map.mpr ⟨a, ha, by simp⟩
    · intro hle p hp a ha hs
      exact Nat.le_trans (size_le_total papers p a hp ha hs) hle

/-- Witness for C6: the 25 MiB paper exceeds the limit and the assembled email
has no binary attachment parts. -/
theorem c6_attachment_size_threshold_witness :
    Zotero.attachment_total_size [c6_paper] > SIZE_LIMIT
  ∧ (Zotero.send_paper_email [c6_paper]).attachment_paths = [] := by
  have h := (c6_attachment_size_threshold.2.2.1 [c6_paper]).1 (by decide)
  exact ⟨by decide, h.1⟩

/-- C7: a per-record formatting failure is caught and replaced by an inline
error placeholder at the original position of the record, all other records
render normally, and the run exits 0; in the concrete five-record scenario
with the third record raising, the output is four normal fragments and one
placeholder, in original order, under a reversed completion order. -/
theorem c7_formatting_failure_placeholder
    (fmt : Calibre.FormatOracle) (title notice : String) (output_file : Option String)
    (books : List Calibre.Book) (completed : List (Nat × String))
    (h : completed.Perm (Calibre.html_tasks fmt books)) :
    Calibre.generate_books_html completed
        = books.enum.map (fun p => Calibre.format_single_book fmt p.1 p.2)
  ∧ (∀ (idx : Nat) (book : Calibre.Book) (e : String), fmt idx book = Except.error e →
       Calibre.format_single_book fmt idx book
         = "<div class=\x27item-error\x27>Error formatting book "
             ++ toString (idx + 1) ++ ": " ++ e ++ "</div>")
  ∧ (∀ (idx : Nat) (book : Calibre.Book) (content : String), fmt idx book = Except.ok content →
       Calibre.format_single_book fmt idx book
         = "<div class=\x27item-number\x27>Book #" ++ toString (idx + 1) ++ "</div>"
             ++ "\n" ++ content)
  ∧ (Calibre.display_books fmt title notice books OutputFormat.html output_file true).2 = 0
  ∧ (∀ (zfmt : Zotero.ItemFormatOracle) (coll : String) (idx : Nat) (item : Zotero.ZItem)
        (e : String), zfmt idx item = Except.error e →
       Zotero.format_single_item zfmt coll idx item
         = "<div class=\x27item-error\x27>Error formatting item "
             ++ toString (idx + 1) ++ ": " ++ e ++ "</div>")
  ∧ Calibre.generate_books_html c7_completed
        = ["<div class=\x27item-number\x27>Book #1</div>" ++ "\n" ++ "content0",
           "<div class=\x27item-number\x27>Book #2</div>" ++ "\n" ++ "content1",
           "<div class=\x27item-error\x27>Error formatting book 3: boom</div>",
           "<div class=\x27item-number\x27>Book #4</div>" ++ "\n" ++ "content3",
           "<div class=\x27item-number\x27>Book #5</div>" ++ "\n" ++ "content4"]
  ∧ (Calibre.display_books c7_fmt "T" "N" c7_books OutputFormat.html none true).2 = 0 := by
  refine ⟨?_, ?_, ?_, ?_, ?_, by decide, by decide⟩
  · exact gather_perm_keyed (fun i b => Calibre.format_single_book fmt i b) books completed h
  · intro idx book e he
    rw [Calibre.format_single_book, he]
  · intro idx book content hc
    rw [Calibre.format_single_book, hc]
  · rw [Calibre.display_books]
    by_cases hb : books.isEmpty
    · rw [if_pos hb]
    · rw [if_neg hb]
      match output_file with
      | some f => rfl
      | none => rfl
  · intro zfmt coll idx item e he
    rw [Zotero.format_single_item, he]

/-- Witness for C7: the theorem applied to the concrete five-record scenario
with a reversed completion order. -/
theorem c7_formatting_failure_placeholder_witness :
    Calibre.generate_books_html c7_completed
      = c7_books.enum.map (fun p => Calibre.format_single_book c7_fmt p.1 p.2) :=
  (c7_formatting_failure_placeholder c7_fmt "T" "N" none c7_books c7_completed (by decide)).1

/-- C8: with a catalog of three books of which exactly two carry the tag math,
fetching orders them timestamp-descending and filtering by tag math yields
exactly those two books in that original order; in general the tag filter
returns a sublist of its input, so relative order is always preserved. -/
theorem c8_tag_filter_scenario :
    Calibre.list_calibre_books [c8_b2, c8_b3, c8_b1] = [c8_b1, c8_b2, c8_b3]
  ∧ Calibre.filter_books_by_tags ["math"] [c8_b1, c8_b2, c8_b3] = [c8_b1, c8_b3]
  ∧ c8_b3.timestamp ≤ c8_b1.timestamp
  ∧ (∀ (raw_tags : List String) (books : List Calibre.Book),
       (Calibre.filter_books_by_tags raw_tags books).Sublist books) := by
  refine ⟨by decide, by decide, by decide, ?_⟩
  intro raw_tags books
  simp only [Calibre.filter_books_by_tags]
  exact List.filter_sublist books

/-- The inner append-if-absent fold of the title selection keeps the selection
free of duplicates. -/
theorem select_titles_inner_nodup (ms : List Calibre.Book) :
    ∀ (sel : List Calibre.Book), sel.Nodup →
      (ms.foldl (fun sel m => if m ∉ sel then sel ++ [m] else sel) sel).Nodup := by
  induction ms with
  | nil => intro sel h; exact h
  | cons m rest ih =>
      intro sel h
      rw [List.foldl_cons]
      by_cases hm : m ∉ sel
      · rw [if_pos hm]
        exact ih _ (by simp [List.nodup_append, List.disjoint_singleton, h, hm])
      · rw [if_neg hm]
        exact ih _ h

/-- The inner fold of search_sqlite_db keeps the collected keys free of
duplicates. -/
theorem sqlite_inner_nodup (hits : List Zotero.DbRow) :
    ∀ (res : List Zotero.ZItem), (res.map Zotero.ZItem.key).Nodup →
      ((hits.foldl (fun res r => if r.key ∉ res.map Zotero.ZItem.key
          then res ++ [Zotero.row_to_item r] else res) res).map Zotero.ZItem.key).Nodup := by
  induction hits with
  | nil => intro res h; exact h
  | cons r rest ih =>
      intro res h
      rw [List.foldl_cons]
      by_cases hr : r.key ∉ res.map Zotero.ZItem.key
      · rw [if_pos hr]
        apply ih
        rw [List.map_append]
        simp [List.nodup_append, List.disjoint_singleton, h, Zotero.row_to_item, hr]
      · rw [if_neg hr]
        exact ih _ h

/-- The inner fold of search_zotero_api keeps the collected keys free of
duplicates. -/
theorem api_inner_nodup (hits : List Zotero.ZItem) :
    ∀ (res : List Zotero.ZItem), (res.map Zotero.ZItem.key).Nodup →
      ((hits.foldl (fun res item => if Zotero.api_keeps item ∧ item.key ∉ res.map Zotero.ZItem.key
          then res ++ [item] else res) res).map Zotero.ZItem.key).Nodup := by
  induction hits with
  | nil => intro res h; exact h
  | cons it rest ih =>
      intro res h
      rw [List.foldl_cons]
      by_cases hc : Zotero.api_keeps it ∧ it.key ∉ res.map Zotero.ZItem.key
      · rw [if_pos hc]
        apply ih
        rw [List.map_append]
        simp [List.nodup_append, List.disjoint_singleton, h, hc.2]
      · rw [if_neg hc]
        exact ih _ h

/-- C9: neither the email title selection nor the multi-query searches return
a record twice: the calibre selection list has no duplicate entry, and both
the SQLite search and the API search return key-distinct result lists. -/
theorem c9_selection_no_duplicates :
    (∀ (queries : List String) (books : List Calibre.Book),
       (Calibre.select_books_by_titles queries books).Nodup)
  ∧ (∀ (rows : List Zotero.DbRow) (queries : List String) (item_type : Option String)
        (max_results : Nat),
       ((Zotero.search_sqlite_db rows queries item_type max_results).map Zotero.ZItem.key).Nodup)
  ∧ (∀ (api_results : String → List Zotero.ZItem) (queries : List String),
       ((Zotero.search_zotero_api api_results queries).map Zotero.ZItem.key).Nodup) := by
  refine ⟨?_, ?_, ?_⟩
  · intro queries books
    simp only [Calibre.select_books_by_titles]
    have haux : ∀ (qs : List String) (acc : List Calibre.Book), acc.Nodup →
        (qs.foldl (fun selected q =>
          (books.filter (fun b => pyIn (pyLower q) (pyLower b.title))).foldl
            (fun sel m => if m ∉ sel then sel ++ [m] else sel) selected) acc).Nodup := by
      intro qs
      induction qs with
      | nil => intro acc h; exact h
      | cons q rest ih =>
          intro acc h
          rw [List.foldl_cons]
          exact ih _ (select_titles_inner_nodup _ _ h)
    exact haux queries [] List.nodup_nil
  · intro rows queries item_type max_results
    simp only [Zotero.search_sqlite_db]
    have haux : ∀ (qs : List String) (acc : List Zotero.ZItem), (acc.map Zotero.ZItem.key).Nodup →
        ((qs.foldl (fun results q =>
          (Zotero.sql_query_rows rows q item_type max_results).foldl
            (fun res r => if r.key ∉ res.map Zotero.ZItem.key
              then res ++ [Zotero.row_to_item r] else res) results) acc).map Zotero.ZItem.key).Nodup := by
      intro qs
      induction qs with
      | nil => intro acc h; exact h
      | cons q rest ih =>
          intro acc h
          rw [List.foldl_cons]
          exact ih _ (sqlite_inner_nodup _ _ h)
    exact haux queries [] (by simp)
  · intro api_results queries
    simp only [Zotero.search_zotero_api]
    have haux : ∀ (qs : List String) (acc : List Zotero.ZItem), (acc.map Zotero.ZItem.key).Nodup →
        ((qs.foldl (fun all_results q =>
          (api_results q).foldl
            (fun res item => if Zotero.api_keeps item ∧ item.key ∉ res.map Zotero.ZItem.key
              then res ++ [item] else res) all_results) acc).map Zotero.ZItem.key).Nodup := by
      intro qs
      induction qs with
      | nil => intro acc h; exact h
      | cons q rest ih =>
          intro acc h
          rw [List.foldl_cons]
          exact ih _ (api_inner_nodup _ _ h)
    exact haux queries [] (by simp)

/-- C10: on an empty record list both display functions print the fixed
message (No books found. / No items found.), exit 0, and perform no file
write and produce no report content, for every output format and output file
setting. -/
theorem c10_empty_display (cfmt : Calibre.FormatOracle) (zfmt : Zotero.ItemFormatOracle)
    (title notice coll : String) (ofmt : OutputFormat) (ofile : Option String) (pok : Bool) :
    Calibre.display_books cfmt title notice [] ofmt ofile pok
        = ([Effect.console "No books found."], 0)
  ∧ Zotero.display_items zfmt title notice coll [] ofmt ofile pok
        = ([Effect.console "No items found."], 0)
  ∧ (∀ (p c : String),
       Effect.fileWrite p c ∉ (Calibre.display_books cfmt title notice [] ofmt ofile pok).1)
  ∧ (∀ (p c : String),
       Effect.fileWrite p c ∉ (Zotero.display_items zfmt title notice coll [] ofmt ofile pok).1) := by
  refine ⟨rfl, rfl, ?_, ?_⟩
  · intro p c
    simp [Calibre.display_books]
  · intro p c
    simp [Zotero.display_items]
